import Mathlib

/-!
Verification of the Neutral IPC server (`src/main.rs`).

The development shallowly embeds the Rust source:
* bytes are `Nat` values (`< 256` where it matters, stated as hypotheses);
* the 12-byte protocol header is the structure `Header` with the codec
  `Header.from_bytes` / `Header.to_bytes`;
* the per-connection handler `handle_client` is a pure function from the
  incoming byte stream to an outcome (bytes written back plus an optional
  transport error);
* the external rendering engine (the `neutralts` crate) and the JSON
  serializer (`serde_json`) are out of the repository; they are modelled as
  an abstract `Facade` of total functions plus success flags for the
  fallible operations that the Rust code `unwrap`s.
-/

namespace NeutralIpc

/-- Size of the fixed protocol header in bytes (`HEADER_SIZE` in the source). -/
def HEADER_SIZE : Nat := 12

/-- Control code for the parse-template action. -/
def CTRL_PARSE_TEMPLATE : Nat := 10

/-- Response status code for success. -/
def CTRL_STATUS_OK : Nat := 0

/-- Content-format tag: JSON. -/
def CONTENT_JSON : Nat := 10

/-- Content-format tag: file path. -/
def CONTENT_PATH : Nat := 20

/-- Content-format tag: plaintext. -/
def CONTENT_TEXT : Nat := 30

/-- Big-endian reassembly of four bytes, as `u32::from_be_bytes`. -/
def u32FromBe (b0 b1 b2 b3 : Nat) : Nat :=
  b0 * 2 ^ 24 + b1 * 2 ^ 16 + b2 * 2 ^ 8 + b3

/-- Big-endian byte split of a `u32`, most significant byte first, as `u32::to_be_bytes`. -/
def u32ToBe (v : Nat) : List Nat :=
  [v / 2 ^ 24 % 256, v / 2 ^ 16 % 256, v / 2 ^ 8 % 256, v % 256]

/-- The protocol header (struct `Header` in the source): one reserved byte,
one control byte, then format tag and big-endian length for each of the two
content blocks.  Byte fields are `u8` (values `< 256`), lengths are `u32`
(values `< 2 ^ 32`); the range conditions appear as hypotheses where needed. -/
structure Header where
  reserved : Nat
  control : Nat
  content_format_1 : Nat
  content_length_1 : Nat
  content_format_2 : Nat
  content_length_2 : Nat
  deriving Repr, DecidableEq

/-- Decoding of the header (`Header::from_bytes`): fails on buffers shorter
than 12 bytes, otherwise reads the fields in the fixed layout (lengths
big-endian). -/
def Header.from_bytes (bytes : List Nat) : Option Header :=
  if bytes.length < HEADER_SIZE then
    none
  else
    some {
      reserved := bytes.getD 0 0,
      control := bytes.getD 1 0,
      content_format_1 := bytes.getD 2 0,
      content_length_1 :=
        u32FromBe (bytes.getD 3 0) (bytes.getD 4 0) (bytes.getD 5 0) (bytes.getD 6 0),
      content_format_2 := bytes.getD 7 0,
      content_length_2 :=
        u32FromBe (bytes.getD 8 0) (bytes.getD 9 0) (bytes.getD 10 0) (bytes.getD 11 0) }

/-- Encoding of the header (`Header::to_bytes`): the 12-byte layout, lengths
big-endian. -/
def Header.to_bytes (h : Header) : List Nat :=
  [h.reserved, h.control, h.content_format_1]
    ++ u32ToBe h.content_length_1
    ++ [h.content_format_2]
    ++ u32ToBe h.content_length_2

/-- A header is representable when its byte fields fit in `u8` and its
length fields fit in `u32`, as the Rust field types guarantee. -/
def Header.WF (h : Header) : Prop :=
  h.reserved < 256 ∧ h.control < 256 ∧ h.content_format_1 < 256 ∧
    h.content_length_1 < 2 ^ 32 ∧ h.content_format_2 < 256 ∧
    h.content_length_2 < 2 ^ 32

instance (h : Header) : Decidable h.WF := by
  unfold Header.WF; infer_instance

/-- A UTF-8 continuation byte (`0x80 ..= 0xBF`). -/
def utf8ContOk (b : Nat) : Bool := 0x80 ≤ b && b ≤ 0xBF

/-- Strict UTF-8 validity of a byte sequence, as `String::from_utf8` checks
it in Rust: ASCII is one byte; two-byte sequences start at `0xC2` (no
overlong forms); three-byte sequences exclude overlongs (`0xE0` needs
`0xA0..`) and surrogates (`0xED` allows only `..0x9F`); four-byte sequences
exclude overlongs (`0xF0` needs `0x90..`) and values above `U+10FFFF`
(`0xF4` allows only `..0x8F`). -/
def validUtf8 : List Nat → Bool
  | [] => true
  | b :: t =>
    if b ≤ 0x7F then validUtf8 t
    else if b < 0xC2 then false
    else if b ≤ 0xDF then
      match t with
      | c1 :: t' => utf8ContOk c1 && validUtf8 t'
      | [] => false
    else if b ≤ 0xEF then
      match t with
      | c1 :: c2 :: t' =>
        (if b = 0xE0 then (0xA0 ≤ c1 && c1 ≤ 0xBF : Bool)
          else if b = 0xED then (0x80 ≤ c1 && c1 ≤ 0x9F : Bool)
          else utf8ContOk c1) && utf8ContOk c2 && validUtf8 t'
      | _ => false
    else if b ≤ 0xF4 then
      match t with
      | c1 :: c2 :: c3 :: t' =>
        (if b = 0xF0 then (0x90 ≤ c1 && c1 ≤ 0xBF : Bool)
          else if b = 0xF4 then (0x80 ≤ c1 && c1 ≤ 0x8F : Bool)
          else utf8ContOk c1) && utf8ContOk c2 && utf8ContOk c3 && validUtf8 t'
      | _ => false
    else false

/-- The status descriptor exposed by the rendering engine after a render:
the four values the handler reads back (`has_error`, `get_status_code`,
`get_status_text`, `get_status_param`).  Text values are UTF-8 byte
sequences (Rust `String`s). -/
structure RenderStatus where
  has_error : Bool
  status_code : Int
  status_text : List Nat
  status_param : List Nat
  deriving Repr, DecidableEq, Inhabited

/-- The external world `parse_template` talks to: the `Template` of the `neutralts` crate
plus the `serde_json` serializer, neither of which is part of this
repository.  The fallible operations that the source `unwrap`s
(`Template::new`, `merge_schema_str`, `set_src_path`) are modelled by
success flags; `rendered`/`status` give the output text of `render()` and the
status getters as a function of the schema, the template source and whether
the source is a path; `serialize` is the `serde_json` rendering of the
`json!` status object to a `String` (UTF-8 bytes). -/
structure Facade where
  newOk : Bool
  mergeOk : List Nat → Bool
  setPathOk : List Nat → Bool
  rendered : List Nat → List Nat → Bool → List Nat
  status : List Nat → List Nat → Bool → RenderStatus
  serialize : RenderStatus → List Nat

/-- Result record of the render step (`struct ParseTemplateResult`): the
JSON status body, the rendered text (both as UTF-8 bytes) and the response
status byte. -/
structure ParseTemplateResult where
  json : List Nat
  text : List Nat
  status : Nat
  deriving Repr, DecidableEq

/-- The function `parse_template` from the source.  Here `none` models a
panic of one of the three `unwrap`s (possible only when the external facade
fails, which its boundary contract rules out); otherwise the status fields
of the facade are
serialized into the JSON body, the rendered text is passed through, and the
status byte is always `CTRL_STATUS_OK`. -/
def parse_template (f : Facade) (schema tpl : List Nat) (tpl_type : Nat) :
    Option ParseTemplateResult :=
  if ¬ f.newOk then none
  else if ¬ f.mergeOk schema then none
  else if tpl_type = CONTENT_PATH ∧ ¬ f.setPathOk tpl then none
  else
    let isPath := tpl_type == CONTENT_PATH
    some { json := f.serialize (f.status schema tpl isPath),
           text := f.rendered schema tpl isPath,
           status := CTRL_STATUS_OK }

/-- The boundary contract the spec states for the rendering facade: its
fallible setup operations never fail (all failures are reported through the
status fields instead). -/
def Facade.WellBehaved (f : Facade) : Prop :=
  f.newOk = true ∧ (∀ s, f.mergeOk s = true) ∧ (∀ t, f.setPathOk t = true)

/-- A concrete well-behaved facade used by witnesses: it renders the
template source unchanged and reports a fixed successful status. -/
def idFacade : Facade where
  newOk := true
  mergeOk := fun _ => true
  setPathOk := fun _ => true
  rendered := fun _ tpl _ => tpl
  status := fun _ _ _ => ⟨false, 200, [79, 75], []⟩
  serialize := fun st => st.status_text

/-- Transport-level failures of `handle_client`: the `Err` returns of the
source (I/O failure on a read, unsupported control code, invalid content
format, invalid UTF-8) plus `panicked` for an `unwrap` failure inside
`parse_template` and the dead `invalidHeader` branch.  An error means the
connection is dropped with no response. -/
inductive ClientErr
  | ioError
  | invalidHeader
  | invalidFormat1
  | invalidFormat2
  | utf8Error1
  | utf8Error2
  | panicked
  | unsupportedControl
  deriving Repr, DecidableEq

/-- Outcome of one connection: the bytes written back to the peer and the
transport error, if any.  Every error path in the source returns before the
first write, so an error always comes with `written = []`. -/
structure ClientOutcome where
  written : List Nat
  err : Option ClientErr
  deriving Repr, DecidableEq

/-- Reading a fixed number of bytes from a byte stream, as `read_exact`:
succeeds only when at least `n` bytes are available, consuming exactly `n`. -/
def readExact (n : Nat) (input : List Nat) : Option (List Nat × List Nat) :=
  if n ≤ input.length then some (input.take n, input.drop n) else none

/-- The function `handle_client` from the source, as a pure function of the facade and
the incoming byte stream: read 12 header bytes, decode, accept only the
parse-template control code, validate both content-format tags, read the
two declared content blocks, decode them as UTF-8, dispatch to
`parse_template`, and write back response header, JSON body and rendered
text.  The `as u32` casts of the body lengths appear as `% 2 ^ 32`. -/
def handle_client (f : Facade) (input : List Nat) : ClientOutcome :=
  match readExact HEADER_SIZE input with
  | none => ⟨[], some .ioError⟩
  | some (header_bytes, rest) =>
    match Header.from_bytes header_bytes with
    | none => ⟨[], some .invalidHeader⟩
    | some header =>
      if header.control = CTRL_PARSE_TEMPLATE then
        if header.content_format_1 ≠ CONTENT_JSON then
          ⟨[], some .invalidFormat1⟩
        else if header.content_format_2 ≠ CONTENT_TEXT ∧
            header.content_format_2 ≠ CONTENT_PATH then
          ⟨[], some .invalidFormat2⟩
        else
          match readExact header.content_length_1 rest with
          | none => ⟨[], some .ioError⟩
          | some (content_1_buffer, rest2) =>
            match readExact header.content_length_2 rest2 with
            | none => ⟨[], some .ioError⟩
            | some (content_2_buffer, _) =>
              if ¬ validUtf8 content_1_buffer then ⟨[], some .utf8Error1⟩
              else if ¬ validUtf8 content_2_buffer then ⟨[], some .utf8Error2⟩
              else
                match parse_template f content_1_buffer content_2_buffer
                    header.content_format_2 with
                | none => ⟨[], some .panicked⟩
                | some result =>
                  let response_header : Header :=
                    { reserved := 0,
                      control := result.status,
                      content_format_1 := CONTENT_JSON,
                      content_length_1 := result.json.length % 2 ^ 32,
                      content_format_2 := CONTENT_TEXT,
                      content_length_2 := result.text.length % 2 ^ 32 }
                  ⟨response_header.to_bytes ++ result.json ++ result.text, none⟩
      else ⟨[], some .unsupportedControl⟩

/-- A JSON status body of `2 ^ 32` bytes (all the ASCII digit `0`).  Kept
behind a definition so proofs never materialize the list. -/
def bigJson : List Nat := List.replicate (2 ^ 32) 48

/-- A well-behaved facade whose serialized JSON status body is `2 ^ 32`
bytes long: it exposes the `as u32` truncation of the body lengths in the
response header. -/
def bigFacade : Facade where
  newOk := true
  mergeOk := fun _ => true
  setPathOk := fun _ => true
  rendered := fun _ _ _ => []
  status := fun _ _ _ => default
  serialize := fun _ => bigJson

/-- A JSON value, as `serde_json::Value`: object keys and string values are
UTF-8 byte sequences. -/
inductive Json
  | null
  | jbool (b : Bool)
  | num (n : Int)
  | jstr (s : List Nat)
  | arr (items : List Json)
  | obj (fields : List (List Nat × Json))

/-- Non-mutating `Value` indexing of `serde_json`, `value[key]`: looks the
key up in an object and yields `Null` when the key is absent or the value
is not an object. -/
def Json.index (j : Json) (key : List Nat) : Json :=
  match j with
  | .obj fields =>
    match fields.find? (fun kv => kv.1 == key) with
    | some kv => kv.2
    | none => .null
  | _ => .null

/-- The string payload of a JSON value, if it is a string (`Value::as_str`). -/
def Json.as_str (j : Json) : Option (List Nat) :=
  match j with
  | .jstr s => some s
  | _ => none

/-- ASCII bytes of the key `host`. -/
def hostKey : List Nat := [104, 111, 115, 116]

/-- ASCII bytes of the key `port`. -/
def portKey : List Nat := [112, 111, 114, 116]

/-- ASCII bytes of the default host `127.0.0.1`. -/
def defaultHost : List Nat := [49, 50, 55, 46, 48, 46, 48, 46, 49]

/-- ASCII bytes of the default port `4273`. -/
def defaultPort : List Nat := [52, 50, 55, 51]

/-- Listener configuration (`struct Config`): the host and port the
listener binds, as byte strings. -/
structure Config where
  host : List Nat
  port : List Nat
  deriving Repr, DecidableEq

/-- The default configuration (`Config::default`): host `127.0.0.1`, port
`4273`. -/
def Config.default : Config :=
  { host := defaultHost, port := defaultPort }

/-- The constructor `Config::new`, as a function of the external world: `readConfigFile`
is the result of `fs::read_to_string` on the fixed config path (`none` when
the file is missing or unreadable), and `parseJson` is the `serde_json`
parsing step (`none` on invalid JSON).  Either failure falls back to the default
configuration; on success the `host`/`port` string fields are read with the
defaults filled in for absent or non-string values. -/
def Config.new (readConfigFile : Option (List Nat))
    (parseJson : List Nat → Option Json) : Config :=
  match readConfigFile with
  | some config_content =>
    match parseJson config_content with
    | some config =>
      { host := ((config.index hostKey).as_str).getD defaultHost,
        port := ((config.index portKey).as_str).getD defaultPort }
    | none => Config.default
  | none => Config.default

theorem Header.to_bytes_length (h : Header) : h.to_bytes.length = HEADER_SIZE := by
  simp [Header.to_bytes, u32ToBe, HEADER_SIZE]

/-- The big-endian `u32` byte split reassembles to the original value. -/
theorem u32_be_roundtrip (v : Nat) (h : v < 2 ^ 32) :
    v / 2 ^ 24 % 256 * 2 ^ 24 + v / 2 ^ 16 % 256 * 2 ^ 16 + v / 2 ^ 8 % 256 * 2 ^ 8 +
      v % 256 = v := by
  omega

theorem readExact_append (n : Nat) (l r : List Nat) (h : l.length = n) :
    readExact n (l ++ r) = some (l, r) := by
  subst h
  simp [readExact, List.take_left, List.drop_left]

/-- A list of length at least 11 splits into 11 explicit heads and a tail. -/
theorem exists_cons11 (l : List Nat) (h : 11 ≤ l.length) :
    ∃ a0 a1 a2 a3 a4 a5 a6 a7 a8 a9 a10 t,
      l = a0 :: a1 :: a2 :: a3 :: a4 :: a5 :: a6 :: a7 :: a8 :: a9 :: a10 :: t := by
  rcases l with _ | ⟨a0, _ | ⟨a1, _ | ⟨a2, _ | ⟨a3, _ | ⟨a4, _ | ⟨a5, _ | ⟨a6, _ | ⟨a7, _ | ⟨a8, _ | ⟨a9, _ | ⟨a10, t⟩⟩⟩⟩⟩⟩⟩⟩⟩⟩⟩
  all_goals simp only [List.length_cons, List.length_nil] at h
  all_goals first
    | exact ⟨_, _, _, _, _, _, _, _, _, _, _, _, rfl⟩
    | exact absurd h (by omega)

theorem bigJson_length : bigJson.length = 2 ^ 32 := List.length_replicate _ _

/-- C6 -- For every representable header value (u8 byte fields, u32 length
fields), decoding the 12 bytes produced by encoding it yields exactly the
original header: `Header.from_bytes h.to_bytes = some h`. -/
theorem decode_encode_roundtrip (h : Header) (hwf : h.WF) :
    Header.from_bytes h.to_bytes = some h := by
  obtain ⟨h1, h2, h3, h4, h5, h6⟩ := hwf
  cases h with
  | mk reserved control cf1 cl1 cf2 cl2 =>
    simp only [Header.WF] at h1 h2 h3 h4 h5 h6
    simp only [Header.from_bytes, Header.to_bytes, u32ToBe, u32FromBe, HEADER_SIZE,
      List.cons_append, List.nil_append, List.length_cons, List.length_nil,
      List.getD_cons_zero, List.getD_cons_succ,
      if_neg (by omega : ¬ (12 < 12)), Option.some.injEq, Header.mk.injEq]
    refine ⟨trivial, trivial, trivial, ?_, trivial, ?_⟩ <;> omega

/-- Witness for C6 at a concrete header. -/
theorem decode_encode_roundtrip_witness :
    (Header.mk 7 10 10 70000 30 5).WF ∧
      Header.from_bytes (Header.mk 7 10 10 70000 30 5).to_bytes =
        some (Header.mk 7 10 10 70000 30 5) :=
  ⟨by decide, decode_encode_roundtrip _ (by decide)⟩

/-- C7 -- For every buffer of exactly 12 bytes, decoding succeeds and
re-encoding the decoded header reproduces the original 12 bytes exactly. -/
theorem encode_decode_roundtrip (l : List Nat) (hlen : l.length = HEADER_SIZE)
    (hbytes : ∀ b ∈ l, b < 256) :
    ∃ h, Header.from_bytes l = some h ∧ h.to_bytes = l := by
  match l, hlen with
  | [b0, b1, b2, b3, b4, b5, b6, b7, b8, b9, b10, b11], _ =>
    simp only [List.mem_cons, List.not_mem_nil, or_false, forall_eq_or_imp, forall_eq] at hbytes
    obtain ⟨g0, g1, g2, g3, g4, g5, g6, g7, g8, g9, g10, g11⟩ := hbytes
    refine ⟨Header.mk b0 b1 b2 (u32FromBe b3 b4 b5 b6) b7 (u32FromBe b8 b9 b10 b11), ?_, ?_⟩
    · rfl
    · simp only [Header.to_bytes, u32ToBe, u32FromBe, List.cons_append, List.nil_append,
        List.cons.injEq, and_true, true_and]
      omega

/-- Witness for C7 at a concrete 12-byte buffer. -/
theorem encode_decode_roundtrip_witness :
    ∃ h, Header.from_bytes [0, 10, 10, 0, 0, 1, 2, 30, 0, 0, 0, 255] = some h ∧
      h.to_bytes = [0, 10, 10, 0, 0, 1, 2, 30, 0, 0, 0, 255] :=
  encode_decode_roundtrip [0, 10, 10, 0, 0, 1, 2, 30, 0, 0, 0, 255] (by decide) (by decide)

/-- C8 -- Decoding any buffer shorter than 12 bytes fails with `none`
(`HeaderTooShort`); `Header.from_bytes` is a total function on all input
buffers, so no panic and no out-of-bounds read is possible. -/
theorem from_bytes_short (l : List Nat) (hlen : l.length < HEADER_SIZE) :
    Header.from_bytes l = none := by
  simp [Header.from_bytes, hlen]

/-- Witness for C8 at a concrete short buffer. -/
theorem from_bytes_short_witness :
    [0, 10, 10].length < HEADER_SIZE ∧ Header.from_bytes [0, 10, 10] = none :=
  ⟨by decide, from_bytes_short [0, 10, 10] (by decide)⟩

/-- C2 -- For every schema text, template source text and source kind, the
dispatch to the rendering facade never raises a transport-level error
(under the boundary contract of the facade): `parse_template` always returns a
result, its status byte is the success value, and its JSON body is exactly
the serialization of exactly the status fields reported by the facade, forwarded without
reinterpretation, alongside the verbatim rendered text. -/
theorem parse_template_total (f : Facade) (hf : f.WellBehaved)
    (schema tpl : List Nat) (tpl_type : Nat) :
    parse_template f schema tpl tpl_type =
      some { json := f.serialize (f.status schema tpl (tpl_type == CONTENT_PATH)),
             text := f.rendered schema tpl (tpl_type == CONTENT_PATH),
             status := CTRL_STATUS_OK } := by
  obtain ⟨h1, h2, h3⟩ := hf
  simp [parse_template, h1, h2, h3]

/-- Witness for C2 at a concrete facade and concrete inputs. -/
theorem parse_template_total_witness :
    idFacade.WellBehaved ∧
      parse_template idFacade [123, 125] [104, 105] CONTENT_TEXT =
        some { json := [79, 75], text := [104, 105], status := CTRL_STATUS_OK } :=
  ⟨⟨rfl, fun _ => rfl, fun _ => rfl⟩,
    parse_template_total idFacade ⟨rfl, fun _ => rfl, fun _ => rfl⟩ [123, 125] [104, 105]
      CONTENT_TEXT⟩

/-- C3 -- For every request whose header control byte (byte 1) differs from
10 (parse-template), the connection handler aborts with `UnsupportedControl`
and writes zero bytes back to the peer, for any facade and any remaining
input. -/
theorem unsupported_control_aborts (f : Facade)
    (b0 b1 b2 b3 b4 b5 b6 b7 b8 b9 b10 b11 : Nat) (rest : List Nat)
    (hb1 : b1 ≠ CTRL_PARSE_TEMPLATE) :
    handle_client f ([b0, b1, b2, b3, b4, b5, b6, b7, b8, b9, b10, b11] ++ rest) =
      ⟨[], some .unsupportedControl⟩ := by
  have h1 : readExact HEADER_SIZE ([b0, b1, b2, b3, b4, b5, b6, b7, b8, b9, b10, b11] ++ rest) =
      some ([b0, b1, b2, b3, b4, b5, b6, b7, b8, b9, b10, b11], rest) :=
    readExact_append _ _ _ (by simp [HEADER_SIZE])
  simp only [HEADER_SIZE, List.cons_append, List.nil_append] at h1
  simp [handle_client, h1, Header.from_bytes, HEADER_SIZE, hb1]

/-- Witness for C3: control byte 99 on an otherwise plain request. -/
theorem unsupported_control_aborts_witness :
    (99 : Nat) ≠ CTRL_PARSE_TEMPLATE ∧
      handle_client idFacade ([0, 99, 10, 0, 0, 0, 0, 30, 0, 0, 0, 0] ++ []) =
        ⟨[], some .unsupportedControl⟩ :=
  ⟨by decide, unsupported_control_aborts idFacade 0 99 10 0 0 0 0 30 0 0 0 0 [] (by decide)⟩

/-- C4 -- For every parse-template request whose `content_format_1` is not
JSON (10), or whose `content_format_2` is neither plaintext (30) nor a file
path (20), the handler aborts with an invalid-content-format error and
writes nothing — in particular before reading any content block bytes: the
remaining input after the 12 header bytes is arbitrary (it may even be
empty while the header declares nonzero lengths). -/
theorem invalid_content_format_aborts (f : Facade)
    (b0 b2 b3 b4 b5 b6 b7 b8 b9 b10 b11 : Nat) (rest : List Nat)
    (hbad : b2 ≠ CONTENT_JSON ∨ (b7 ≠ CONTENT_TEXT ∧ b7 ≠ CONTENT_PATH)) :
    (handle_client f ([b0, CTRL_PARSE_TEMPLATE, b2, b3, b4, b5, b6, b7, b8, b9, b10, b11]
        ++ rest) = ⟨[], some .invalidFormat1⟩) ∨
      (handle_client f ([b0, CTRL_PARSE_TEMPLATE, b2, b3, b4, b5, b6, b7, b8, b9, b10, b11]
        ++ rest) = ⟨[], some .invalidFormat2⟩) := by
  by_cases hb2 : b2 = CONTENT_JSON
  · right
    obtain hbad | ⟨h71, h72⟩ := hbad
    · exact absurd hb2 hbad
    · subst hb2
      have h1 : readExact HEADER_SIZE
          ([b0, CTRL_PARSE_TEMPLATE, CONTENT_JSON, b3, b4, b5, b6, b7, b8, b9, b10, b11]
            ++ rest) =
          some ([b0, CTRL_PARSE_TEMPLATE, CONTENT_JSON, b3, b4, b5, b6, b7, b8, b9, b10, b11],
            rest) :=
        readExact_append _ _ _ (by simp [HEADER_SIZE])
      simp only [HEADER_SIZE, CTRL_PARSE_TEMPLATE, CONTENT_JSON, CONTENT_TEXT, CONTENT_PATH,
        List.cons_append, List.nil_append] at h1 h71 h72
      simp [handle_client, h1, Header.from_bytes, HEADER_SIZE, CTRL_PARSE_TEMPLATE,
        CONTENT_JSON, CONTENT_TEXT, CONTENT_PATH, h71, h72]
  · left
    have h1 : readExact HEADER_SIZE
        ([b0, CTRL_PARSE_TEMPLATE, b2, b3, b4, b5, b6, b7, b8, b9, b10, b11] ++ rest) =
        some ([b0, CTRL_PARSE_TEMPLATE, b2, b3, b4, b5, b6, b7, b8, b9, b10, b11], rest) :=
      readExact_append _ _ _ (by simp [HEADER_SIZE])
    simp only [HEADER_SIZE, CTRL_PARSE_TEMPLATE, CONTENT_JSON, CONTENT_TEXT, CONTENT_PATH,
      List.cons_append, List.nil_append] at h1 hb2
    simp [handle_client, h1, Header.from_bytes, HEADER_SIZE, CTRL_PARSE_TEMPLATE,
      CONTENT_JSON, CONTENT_TEXT, CONTENT_PATH, hb2]

/-- Witness for C4: `content_format_1 = 30` instead of the required 10. -/
theorem invalid_content_format_aborts_witness :
    ((30 : Nat) ≠ CONTENT_JSON ∨ ((0 : Nat) ≠ CONTENT_TEXT ∧ (0 : Nat) ≠ CONTENT_PATH)) ∧
      ((handle_client idFacade ([0, CTRL_PARSE_TEMPLATE, 30, 0, 0, 0, 9, 30, 0, 0, 0, 0]
          ++ []) = ⟨[], some .invalidFormat1⟩) ∨
        (handle_client idFacade ([0, CTRL_PARSE_TEMPLATE, 30, 0, 0, 0, 9, 30, 0, 0, 0, 0]
          ++ []) = ⟨[], some .invalidFormat2⟩)) :=
  ⟨Or.inl (by decide),
    invalid_content_format_aborts idFacade 0 30 0 0 0 9 30 0 0 0 0 [] (Or.inl (by decide))⟩

/-- C5 -- For every parse-template request with valid formats whose first or
second content block is not valid UTF-8, the handler aborts with a
UTF-8 decode error and writes zero bytes to the peer. -/
theorem utf8_error_aborts (f : Facade)
    (b0 a3 a4 a5 a6 f2 a8 a9 a10 a11 : Nat) (c1 c2 extra : List Nat)
    (hf2 : f2 = CONTENT_TEXT ∨ f2 = CONTENT_PATH)
    (hlen1 : u32FromBe a3 a4 a5 a6 = c1.length)
    (hlen2 : u32FromBe a8 a9 a10 a11 = c2.length)
    (hbad : validUtf8 c1 = false ∨ validUtf8 c2 = false) :
    (handle_client f
        ([b0, CTRL_PARSE_TEMPLATE, CONTENT_JSON, a3, a4, a5, a6, f2, a8, a9, a10, a11]
          ++ (c1 ++ (c2 ++ extra))) = ⟨[], some .utf8Error1⟩) ∨
      (handle_client f
        ([b0, CTRL_PARSE_TEMPLATE, CONTENT_JSON, a3, a4, a5, a6, f2, a8, a9, a10, a11]
          ++ (c1 ++ (c2 ++ extra))) = ⟨[], some .utf8Error2⟩) := by
  have hcond : (¬ f2 = CONTENT_TEXT ∧ ¬ f2 = CONTENT_PATH) = False := by
    obtain rfl | rfl := hf2 <;> simp
  have h1 : readExact HEADER_SIZE
      ([b0, CTRL_PARSE_TEMPLATE, CONTENT_JSON, a3, a4, a5, a6, f2, a8, a9, a10, a11]
        ++ (c1 ++ (c2 ++ extra))) =
      some ([b0, CTRL_PARSE_TEMPLATE, CONTENT_JSON, a3, a4, a5, a6, f2, a8, a9, a10, a11],
        c1 ++ (c2 ++ extra)) :=
    readExact_append _ _ _ (by simp [HEADER_SIZE])
  simp only [HEADER_SIZE, CTRL_PARSE_TEMPLATE, CONTENT_JSON, CONTENT_TEXT, CONTENT_PATH,
    List.cons_append, List.nil_append] at h1 hcond
  have h2 : readExact (u32FromBe a3 a4 a5 a6) (c1 ++ (c2 ++ extra)) =
      some (c1, c2 ++ extra) :=
    readExact_append _ _ _ hlen1.symm
  have h3 : readExact (u32FromBe a8 a9 a10 a11) (c2 ++ extra) = some (c2, extra) :=
    readExact_append _ _ _ hlen2.symm
  by_cases hc1 : validUtf8 c1
  · right
    obtain hbad | hbad := hbad
    · exact absurd hc1 (by simp [hbad])
    · simp [handle_client, h1, h2, h3, Header.from_bytes, HEADER_SIZE,
        CTRL_PARSE_TEMPLATE, CONTENT_JSON, CONTENT_TEXT, CONTENT_PATH, hcond, hc1, hbad]
  · left
    simp only [Bool.not_eq_true] at hc1
    simp [handle_client, h1, h2, h3, Header.from_bytes, HEADER_SIZE,
      CTRL_PARSE_TEMPLATE, CONTENT_JSON, CONTENT_TEXT, CONTENT_PATH, hcond, hc1]

/-- Witness for C5: first content block is the lone byte `0xFF`, which is
not valid UTF-8. -/
theorem utf8_error_aborts_witness :
    validUtf8 [255] = false ∧
      ((handle_client idFacade
          ([0, CTRL_PARSE_TEMPLATE, CONTENT_JSON, 0, 0, 0, 1, 30, 0, 0, 0, 0]
            ++ ([255] ++ ([] ++ []))) = ⟨[], some .utf8Error1⟩) ∨
        (handle_client idFacade
          ([0, CTRL_PARSE_TEMPLATE, CONTENT_JSON, 0, 0, 0, 1, 30, 0, 0, 0, 0]
            ++ ([255] ++ ([] ++ []))) = ⟨[], some .utf8Error2⟩)) :=
  ⟨by decide,
    utf8_error_aborts idFacade 0 0 0 0 1 30 0 0 0 0 [255] [] []
      (Or.inl rfl) (by decide) (by decide) (Or.inl (by decide))⟩

/-- The success path of `handle_client`, for any well-behaved facade: a
valid parse-template request produces no error and the response is the
encoded header (with the body lengths reduced `% 2 ^ 32` by the `as u32`
casts) followed by the JSON status body and the rendered text. -/
theorem handle_client_render (f : Facade) (hf : f.WellBehaved)
    (b0 a3 a4 a5 a6 f2 a8 a9 a10 a11 : Nat) (c1 c2 extra : List Nat)
    (hf2 : f2 = CONTENT_TEXT ∨ f2 = CONTENT_PATH)
    (hlen1 : u32FromBe a3 a4 a5 a6 = c1.length)
    (hlen2 : u32FromBe a8 a9 a10 a11 = c2.length)
    (hv1 : validUtf8 c1 = true) (hv2 : validUtf8 c2 = true) :
    handle_client f
        ([b0, CTRL_PARSE_TEMPLATE, CONTENT_JSON, a3, a4, a5, a6, f2, a8, a9, a10, a11]
          ++ (c1 ++ (c2 ++ extra))) =
      ⟨(Header.mk 0 CTRL_STATUS_OK CONTENT_JSON
            ((f.serialize (f.status c1 c2 (f2 == CONTENT_PATH))).length % 2 ^ 32)
            CONTENT_TEXT
            ((f.rendered c1 c2 (f2 == CONTENT_PATH)).length % 2 ^ 32)).to_bytes
          ++ f.serialize (f.status c1 c2 (f2 == CONTENT_PATH))
          ++ f.rendered c1 c2 (f2 == CONTENT_PATH), none⟩ := by
  obtain ⟨w1, w2, w3⟩ := hf
  have hcond : (¬ f2 = CONTENT_TEXT ∧ ¬ f2 = CONTENT_PATH) = False := by
    obtain rfl | rfl := hf2 <;> simp
  have h1 : readExact HEADER_SIZE
      ([b0, CTRL_PARSE_TEMPLATE, CONTENT_JSON, a3, a4, a5, a6, f2, a8, a9, a10, a11]
        ++ (c1 ++ (c2 ++ extra))) =
      some ([b0, CTRL_PARSE_TEMPLATE, CONTENT_JSON, a3, a4, a5, a6, f2, a8, a9, a10, a11],
        c1 ++ (c2 ++ extra)) :=
    readExact_append _ _ _ (by simp [HEADER_SIZE])
  have h2 : readExact (u32FromBe a3 a4 a5 a6) (c1 ++ (c2 ++ extra)) =
      some (c1, c2 ++ extra) :=
    readExact_append _ _ _ hlen1.symm
  have h3 : readExact (u32FromBe a8 a9 a10 a11) (c2 ++ extra) = some (c2, extra) :=
    readExact_append _ _ _ hlen2.symm
  simp only [HEADER_SIZE, CTRL_PARSE_TEMPLATE, CTRL_STATUS_OK, CONTENT_JSON, CONTENT_TEXT,
    CONTENT_PATH, List.cons_append, List.nil_append] at h1 hcond ⊢
  simp [handle_client, parse_template, h1, h2, h3, Header.from_bytes, HEADER_SIZE,
    CTRL_PARSE_TEMPLATE, CTRL_STATUS_OK, CONTENT_JSON, CONTENT_TEXT, CONTENT_PATH,
    hcond, hv1, hv2, w1, w2, w3]

/-- C1 (amended) -- For every parse-template request that passes validation,
content reading and UTF-8 decoding, and whose JSON status body and rendered
text are each shorter than `2 ^ 32` bytes, the handler reports no error and
writes back exactly: a response header with `reserved = 0`,
`control = CTRL_STATUS_OK` (0 — no execution path produces a nonzero status),
`content_format_1 = CONTENT_JSON` (10), `content_length_1` equal to the byte
length of the JSON status body, `content_format_2 = CONTENT_TEXT` (30) and
`content_length_2` equal to the byte length of the rendered text, followed by
the JSON body and the rendered text.  (The size bound is forced by the
`as u32` casts in the source; see `content_length_truncates`.) -/
theorem happy_path_response (f : Facade) (hf : f.WellBehaved)
    (b0 a3 a4 a5 a6 f2 a8 a9 a10 a11 : Nat) (c1 c2 extra : List Nat)
    (hf2 : f2 = CONTENT_TEXT ∨ f2 = CONTENT_PATH)
    (hlen1 : u32FromBe a3 a4 a5 a6 = c1.length)
    (hlen2 : u32FromBe a8 a9 a10 a11 = c2.length)
    (hv1 : validUtf8 c1 = true) (hv2 : validUtf8 c2 = true)
    (hjson : (f.serialize (f.status c1 c2 (f2 == CONTENT_PATH))).length < 2 ^ 32)
    (htext : (f.rendered c1 c2 (f2 == CONTENT_PATH)).length < 2 ^ 32) :
    handle_client f
        ([b0, CTRL_PARSE_TEMPLATE, CONTENT_JSON, a3, a4, a5, a6, f2, a8, a9, a10, a11]
          ++ (c1 ++ (c2 ++ extra))) =
      ⟨(Header.mk 0 CTRL_STATUS_OK CONTENT_JSON
            (f.serialize (f.status c1 c2 (f2 == CONTENT_PATH))).length CONTENT_TEXT
            (f.rendered c1 c2 (f2 == CONTENT_PATH)).length).to_bytes
          ++ f.serialize (f.status c1 c2 (f2 == CONTENT_PATH))
          ++ f.rendered c1 c2 (f2 == CONTENT_PATH), none⟩ := by
  rw [handle_client_render f hf b0 a3 a4 a5 a6 f2 a8 a9 a10 a11 c1 c2 extra hf2
    hlen1 hlen2 hv1 hv2, Nat.mod_eq_of_lt hjson, Nat.mod_eq_of_lt htext]

/-- Witness for the amended C1: a concrete request against `idFacade`. -/
theorem happy_path_response_witness :
    handle_client idFacade
        ([7, CTRL_PARSE_TEMPLATE, CONTENT_JSON, 0, 0, 0, 2, CONTENT_TEXT, 0, 0, 0, 2]
          ++ ([123, 125] ++ ([104, 105] ++ []))) =
      ⟨(Header.mk 0 CTRL_STATUS_OK CONTENT_JSON
            (idFacade.serialize (idFacade.status [123, 125] [104, 105]
              (CONTENT_TEXT == CONTENT_PATH))).length CONTENT_TEXT
            (idFacade.rendered [123, 125] [104, 105]
              (CONTENT_TEXT == CONTENT_PATH)).length).to_bytes
          ++ idFacade.serialize (idFacade.status [123, 125] [104, 105]
              (CONTENT_TEXT == CONTENT_PATH))
          ++ idFacade.rendered [123, 125] [104, 105] (CONTENT_TEXT == CONTENT_PATH),
        none⟩ :=
  happy_path_response idFacade ⟨rfl, fun _ => rfl, fun _ => rfl⟩ 7 0 0 0 2
    CONTENT_TEXT 0 0 0 2 [123, 125] [104, 105] [] (Or.inl rfl) (by decide) (by decide)
    (by decide) (by decide) (by decide) (by decide)

/-- C1 counterexample -- With a facade whose JSON status body is `2 ^ 32`
bytes long, the header of the success response records `content_length_1 = 0`
(the length reduced `% 2 ^ 32` by the `as u32` cast) even though the JSON
body actually written has `2 ^ 32 ≠ 0` bytes, so `content_length_1` is not
the byte length of the JSON status body as the claim states. -/
theorem content_length_truncates :
    handle_client bigFacade
        ([0, CTRL_PARSE_TEMPLATE, CONTENT_JSON, 0, 0, 0, 2, CONTENT_TEXT, 0, 0, 0, 0]
          ++ ([123, 125] ++ ([] ++ []))) =
      ⟨(Header.mk 0 CTRL_STATUS_OK CONTENT_JSON 0 CONTENT_TEXT 0).to_bytes
          ++ (bigJson ++ []), none⟩ ∧
      bigJson.length ≠ 0 := by
  constructor
  · have h := handle_client_render bigFacade ⟨rfl, fun _ => rfl, fun _ => rfl⟩
      0 0 0 0 2 CONTENT_TEXT 0 0 0 0 [123, 125] [] [] (Or.inl rfl) (by decide) (by decide)
      (by decide) (by decide)
    rw [h]
    have e1 : bigFacade.serialize
        (bigFacade.status [123, 125] [] (CONTENT_TEXT == CONTENT_PATH)) = bigJson := rfl
    have e2 : bigFacade.rendered [123, 125] [] (CONTENT_TEXT == CONTENT_PATH) =
        ([] : List Nat) := rfl
    rw [e1, e2, bigJson_length, Nat.mod_self, List.length_nil, Nat.zero_mod,
      List.append_nil, List.append_nil]
  · rw [bigJson_length]
    norm_num

/-- C10 -- The request's reserved byte (byte 0) is never inspected: two
incoming byte streams that are identical except for their first byte make
the connection handler produce identical outcomes — the same accept/abort
decision and the same response bytes — for every facade. -/
theorem reserved_byte_not_inspected (f : Facade) (x y : Nat) (rest : List Nat) :
    handle_client f (x :: rest) = handle_client f (y :: rest) := by
  by_cases h : 11 ≤ rest.length
  · obtain ⟨r0, r1, r2, r3, r4, r5, r6, r7, r8, r9, r10, t, rfl⟩ := exists_cons11 rest h
    have hx : readExact HEADER_SIZE
        (x :: r0 :: r1 :: r2 :: r3 :: r4 :: r5 :: r6 :: r7 :: r8 :: r9 :: r10 :: t) =
        some ([x, r0, r1, r2, r3, r4, r5, r6, r7, r8, r9, r10], t) := by
      have := readExact_append HEADER_SIZE [x, r0, r1, r2, r3, r4, r5, r6, r7, r8, r9, r10]
        t (by simp [HEADER_SIZE])
      simpa using this
    have hy : readExact HEADER_SIZE
        (y :: r0 :: r1 :: r2 :: r3 :: r4 :: r5 :: r6 :: r7 :: r8 :: r9 :: r10 :: t) =
        some ([y, r0, r1, r2, r3, r4, r5, r6, r7, r8, r9, r10], t) := by
      have := readExact_append HEADER_SIZE [y, r0, r1, r2, r3, r4, r5, r6, r7, r8, r9, r10]
        t (by simp [HEADER_SIZE])
      simpa using this
    simp only [HEADER_SIZE] at hx hy
    simp [handle_client, hx, hy, Header.from_bytes, HEADER_SIZE]
  · have hno : ¬ HEADER_SIZE ≤ rest.length + 1 := by
      simp only [HEADER_SIZE]; omega
    simp [handle_client, readExact, hno]

/-- C9 -- Configuration loading is total over its error cases: if the
configuration file is missing or unreadable, or its contents are not valid
JSON, `Config.new` returns the default configuration with host `127.0.0.1`
and port `4273` (as ASCII bytes) rather than failing. -/
theorem config_fallback (readConfigFile : Option (List Nat))
    (parseJson : List Nat → Option Json)
    (hbad : readConfigFile = none ∨
      ∃ s, readConfigFile = some s ∧ parseJson s = none) :
    Config.new readConfigFile parseJson = Config.default ∧
      Config.default = { host := [49, 50, 55, 46, 48, 46, 48, 46, 49],
                         port := [52, 50, 55, 51] } := by
  refine ⟨?_, rfl⟩
  obtain rfl | ⟨s, rfl, hp⟩ := hbad
  · rfl
  · simp [Config.new, hp]

/-- Witness for C9: a missing file and a parser that rejects everything. -/
theorem config_fallback_witness :
    Config.new none (fun _ => none) = Config.default ∧
      Config.default = { host := [49, 50, 55, 46, 48, 46, 48, 46, 49],
                         port := [52, 50, 55, 51] } :=
  config_fallback none (fun _ => none) (Or.inl rfl)

end NeutralIpc
